import Mathlib

/-!
Verification of the npm-compatibility reverse proxy of the JSR registry
(the load-balancer module around `proxyToR2`).

Only the test suite `src/lb/proxy_test.ts` of the proxy is present in the
sources; the implementation file `src/lb/proxy.ts` itself is absent, so the
proxy pipeline below is modelled from the specification (sections 3, 4
and 6 of the spec), faithful to its words.  Paths, keys and bodies are
modelled as lists of characters; a storage object is its body together
with an optional content type; the bucket is a function from keys to
gateway results.
-/

namespace JsrProxy

instance {α β : Type} [DecidableEq α] [DecidableEq β] : DecidableEq (Except α β)
  | .error a, .error b => decidable_of_iff (a = b) (by simp)
  | .error _, .ok _ => isFalse (by simp)
  | .ok _, .error _ => isFalse (by simp)
  | .ok a, .ok b => decidable_of_iff (a = b) (by simp)

/-- Hex-digit test used by percent-decoding: 0-9, a-f, A-F (by code point). -/
def isHexDigit (c : Char) : Bool :=
  (48 ≤ c.toNat && c.toNat ≤ 57) ||
  (97 ≤ c.toNat && c.toNat ≤ 102) ||
  (65 ≤ c.toNat && c.toNat ≤ 70)

/-- Numeric value of a hex digit (by code point ranges of 0-9, a-f, A-F). -/
def hexVal (c : Char) : Nat :=
  if c.toNat ≤ 57 then c.toNat - 48
  else if 97 ≤ c.toNat then c.toNat - 87
  else c.toNat - 55

/-- Modelled from the spec: percent-decoding of a path remainder, one pass
over the characters (spec section 4.1; the implementation `src/lb/proxy.ts`
is absent from the sources).  A percent sign must be followed by two hex
digits, which denote one decoded octet; any other character passes through
unchanged; a malformed triplet makes the whole decode fail. -/
def decodeList : List Char → Option (List Char)
  | [] => some []
  | c :: rest =>
    if c = '%' then
      match rest with
      | a :: b :: rest2 =>
        if isHexDigit a && isHexDigit b then
          (decodeList rest2).map (fun t => Char.ofNat (16 * hexVal a + hexVal b) :: t)
        else none
      | _ => none
    else (decodeList rest).map (fun t => c :: t)

/-- Does the list contain a percent sign? -/
def hasPercent (l : List Char) : Bool := l.any (fun c => c = '%')

/-- Does the list contain a percent-encoded octet (a percent sign followed
by two hex digits) anywhere? -/
def hasEncodedOctet (l : List Char) : Bool :=
  l.tails.any (fun t =>
    match t with
    | '%' :: a :: b :: _ => isHexDigit a && isHexDigit b
    | _ => false)

/-- Strip one leading slash from a raw path, when present. -/
def dropSlash (p : List Char) : List Char :=
  match p with
  | '/' :: rest => rest
  | _ => p

/-- Modelled from the spec: the error taxonomy of path resolution
(spec section 7); `badPath` is malformed percent-encoding. -/
inductive PathError where
  | badPath
deriving DecidableEq, Repr

/-- Modelled from the spec: the PathResolver (spec section 4.1; the
implementation `src/lb/proxy.ts` is absent from the sources).  Strip the
leading slash; when the remainder contains a percent sign, percent-decode
the whole remainder once, and a decode failure is a `badPath` error;
otherwise the remainder is the key as-is. -/
def resolveList (p : List Char) : Except PathError (List Char) :=
  let r := dropSlash p
  if hasPercent r then
    match decodeList r with
    | some k => .ok k
    | none => .error .badPath
  else .ok r

/-- Modelled from the spec: a storage object, its body bytes and the
optional content type from stored metadata (spec section 3). -/
structure StorageObject where
  body : List Char
  contentType : Option (List Char)
deriving DecidableEq, Repr

/-- Modelled from the spec: outcome of a StorageGateway call for one key
(spec section 4.3): the object, genuine absence, or a transient backend
failure, which is distinguished from absence. -/
inductive GatewayResult where
  | found (obj : StorageObject)
  | notFound
  | unavailable
deriving DecidableEq, Repr

/-- Modelled from the spec: the bucket as an opaque key-value object store
(spec sections 1 and 4.3), a function from storage keys to gateway
results. -/
def Bucket : Type := List Char → GatewayResult

/-- Modelled from the spec: the two inbound HTTP methods meaningful to the
proxy (spec section 6). -/
inductive Method where
  | head
  | get
deriving DecidableEq, Repr

/-- Modelled from the spec: response headers the proxy sets, content type
when known and content length when known (spec section 3). -/
structure HeadersModel where
  contentType : Option (List Char)
  contentLength : Option Nat
deriving DecidableEq, Repr

/-- Modelled from the spec: an HTTP response, status, headers and a body
that is either absent (HEAD, errors) or the bytes of the object
(spec section 3). -/
structure Response where
  status : Nat
  headers : HeadersModel
  body : Option (List Char)
deriving DecidableEq, Repr

/-- Generic binary content type used when the object carries none. -/
def octetStream : List Char := "application/octet-stream".data

/-- Modelled from the spec: the ResponseBuilder (spec section 4.4; the
implementation `src/lb/proxy.ts` is absent from the sources).  Absence
gives 404 with empty body and no content-type; a transient backend failure
gives 503 with empty body; success gives 200 with content type (generic
binary fallback) and content length, the body only for GET. -/
def buildResponse (m : Method) (r : GatewayResult) : Response :=
  match r with
  | .notFound => ⟨404, ⟨none, none⟩, none⟩
  | .unavailable => ⟨503, ⟨none, none⟩, none⟩
  | .found obj =>
    let hs : HeadersModel :=
      ⟨some (obj.contentType.getD octetStream), some obj.body.length⟩
    match m with
    | .head => ⟨200, hs, none⟩
    | .get => ⟨200, hs, some obj.body⟩

/-- Response sent when path resolution fails with `badPath`: status 400,
empty body. -/
def badPathResponse : Response := ⟨400, ⟨none, none⟩, none⟩

/-- Modelled from the spec: the RewriteHook boundary (spec sections 4.2
and 6), a pure function on raw paths. -/
def RewriteHook : Type := List Char → List Char

/-- Modelled from the spec: the EdgeCache boundary (spec sections 4.5
and 6): a lookup keyed by method and request URL, and a best-effort store
whose boolean result reports whether storing succeeded. -/
structure EdgeCache where
  lookup : Method → List Char → Option Response
  store : Method → List Char → Response → Bool

/-- Modelled from the spec: the cache-free pipeline of the
RequestDispatcher (spec section 4.6; the implementation `src/lb/proxy.ts`
is absent from the sources): RewriteHook on the raw path, then
PathResolver, then StorageGateway, then ResponseBuilder; an absent hook
passes the raw path through unchanged. -/
def proxyCore (m : Method) (raw : List Char) (bucket : Bucket)
    (hook : Option RewriteHook) : Response :=
  let path := match hook with
    | some h => h raw
    | none => raw
  match resolveList path with
  | .error .badPath => badPathResponse
  | .ok key => buildResponse m (bucket key)

/-- Modelled from the spec: `proxyToR2`, the top-level per-request
orchestration (spec section 4.6; the implementation `src/lb/proxy.ts` is
absent from the sources): EdgeCache lookup first; on a hit the cached
response is returned unchanged; on a miss the pipeline runs, the response
is stored best-effort (the store result is ignored) and returned. -/
def proxyToR2 (m : Method) (raw : List Char) (bucket : Bucket)
    (hook : Option RewriteHook) (cache : Option EdgeCache) : Response :=
  match cache with
  | none => proxyCore m raw bucket hook
  | some c =>
    match c.lookup m raw with
    | some resp => resp
    | none =>
      let resp := proxyCore m raw bucket hook
      let _stored := c.store m raw resp
      resp

/-- In-memory bucket built from an association list of key-object pairs,
as the test suite `src/lb/proxy_test.ts` builds its fake bucket: a listed
key is found, any other key is genuinely absent. -/
def createFakeBucket (objects : List (List Char × StorageObject)) : Bucket :=
  fun key =>
    match objects.lookup key with
    | some obj => .found obj
    | none => .notFound

/-! Helper lemmas about the percent-decoder. -/

lemma decodeList_cons_ne (c : Char) (l : List Char) (hc : c ≠ '%') :
    decodeList (c :: l) = (decodeList l).map (fun t => c :: t) := by
  cases l with
  | nil => simp [decodeList, hc]
  | cons a l2 =>
    cases l2 with
    | nil => simp [decodeList, hc]
    | cons b l3 => simp [decodeList, hc]

lemma decodeList_noPercent (l : List Char) (h : hasPercent l = false) :
    decodeList l = some l := by
  induction l with
  | nil => rfl
  | cons c l ih =>
    simp only [hasPercent, List.any_cons, Bool.or_eq_false_iff] at h
    have hc : c ≠ '%' := by
      intro hcc
      simp [hcc] at h
    rw [decodeList_cons_ne c l hc, ih (by simpa [hasPercent] using h.2)]
    rfl

lemma decodeList_append_noPercent (xs ys : List Char) (h : hasPercent xs = false) :
    decodeList (xs ++ ys) = (decodeList ys).map (fun t => xs ++ t) := by
  induction xs with
  | nil => simp
  | cons c xs ih =>
    simp only [hasPercent, List.any_cons, Bool.or_eq_false_iff] at h
    have hc : c ≠ '%' := by
      intro hcc
      simp [hcc] at h
    rw [List.cons_append, decodeList_cons_ne c (xs ++ ys) hc,
      ih (by simpa [hasPercent] using h.2), Option.map_map]
    rfl

lemma decodeList_pct2F (ys : List Char) :
    decodeList ('%' :: '2' :: 'F' :: ys) = (decodeList ys).map (fun t => '/' :: t) := by
  have h2 : isHexDigit '2' = true := by decide
  have hF : isHexDigit 'F' = true := by decide
  have hchar : Char.ofNat (16 * hexVal '2' + hexVal 'F') = '/' := by decide
  simp [decodeList, h2, hF, hchar]

lemma hasPercent_append (xs ys : List Char) :
    hasPercent (xs ++ ys) = (hasPercent xs || hasPercent ys) := by
  simp [hasPercent]

/-! Concrete fixtures mirroring the fake buckets of `src/lb/proxy_test.ts`. -/

/-- The object stored under `@jsr/std__yaml` in the test bucket: body of the
two bytes open-brace close-brace, content type `application/json`. -/
def yamlObject : StorageObject := ⟨"\x7b\x7d".data, some "application/json".data⟩

/-- The test bucket holding only the key `@jsr/std__yaml`. -/
def yamlBucket : Bucket := createFakeBucket [("@jsr/std__yaml".data, yamlObject)]

/-- A bucket holding no objects at all. -/
def emptyBucket : Bucket := createFakeBucket []

/-- A bucket whose backend reports a transient failure for every key. -/
def downBucket : Bucket := fun _ => .unavailable

/-- The rewrite hook of the root test: raw path `/` becomes `/root.json`,
anything else passes through. -/
def rootHook : RewriteHook :=
  fun p => if p = "/".data then "/root.json".data else p

/-- The bucket of the root test, holding only `root.json`. -/
def rootBucket : Bucket :=
  createFakeBucket [("root.json".data, ⟨"\x7b\x7d".data, some "application/json".data⟩)]

/-- A cache that never hits and whose best-effort store always fails. -/
def noStoreCache : EdgeCache := ⟨fun _ _ => none, fun _ _ _ => false⟩

/-- C1: a path whose scope separator is the literal slash and the same path
with the separator written `%2F` resolve to the identical storage key (the
segments around the separator being percent-free), and a request through
`proxyToR2` against the same bucket yields the identical response for both
forms; instantiated at `/@jsr/std__yaml` and `/@jsr%2Fstd__yaml` by the
witness. -/
theorem C1_separator_encoding_equivalence (a b : List Char)
    (ha : hasPercent a = false) (hb : hasPercent b = false) :
    resolveList ('/' :: (a ++ '/' :: b)) = .ok (a ++ '/' :: b)
    ∧ resolveList ('/' :: (a ++ '%' :: '2' :: 'F' :: b)) = .ok (a ++ '/' :: b)
    ∧ ∀ (bucket : Bucket) (m : Method),
        proxyToR2 m ('/' :: (a ++ '/' :: b)) bucket none none
          = proxyToR2 m ('/' :: (a ++ '%' :: '2' :: 'F' :: b)) bucket none none := by
  have hp1 : hasPercent (a ++ '/' :: b) = false := by
    rw [hasPercent_append, ha, Bool.false_or]
    show (decide ('/' = '%') || hasPercent b) = false
    rw [hb]
    rfl
  have hp2 : hasPercent (a ++ '%' :: '2' :: 'F' :: b) = true := by
    have hx : hasPercent ('%' :: '2' :: 'F' :: b) = true := rfl
    rw [hasPercent_append, hx, Bool.or_true]
  have hd : decodeList (a ++ '%' :: '2' :: 'F' :: b) = some (a ++ '/' :: b) := by
    rw [decodeList_append_noPercent a _ ha, decodeList_pct2F, decodeList_noPercent b hb]
    rfl
  have h1 : resolveList ('/' :: (a ++ '/' :: b)) = .ok (a ++ '/' :: b) := by
    simp [resolveList, dropSlash, hp1]
  have h2 : resolveList ('/' :: (a ++ '%' :: '2' :: 'F' :: b)) = .ok (a ++ '/' :: b) := by
    simp [resolveList, dropSlash, hp2, hd]
  refine ⟨h1, h2, fun bucket m => ?_⟩
  simp [proxyToR2, proxyCore, h1, h2]

/-- C1 witness: both concrete path forms of the tests resolve to
`@jsr/std__yaml` and the GET responses against the test bucket agree. -/
theorem C1_separator_encoding_equivalence_witness :
    resolveList "/@jsr/std__yaml".data = .ok "@jsr/std__yaml".data
    ∧ resolveList "/@jsr%2Fstd__yaml".data = .ok "@jsr/std__yaml".data
    ∧ proxyToR2 .get "/@jsr/std__yaml".data yamlBucket none none
        = proxyToR2 .get "/@jsr%2Fstd__yaml".data yamlBucket none none := by
  have h := C1_separator_encoding_equivalence "@jsr".data "std__yaml".data
    (by decide) (by decide)
  have e1 : '/' :: ("@jsr".data ++ '/' :: "std__yaml".data) = "/@jsr/std__yaml".data := by
    decide
  have e2 : '/' :: ("@jsr".data ++ '%' :: '2' :: 'F' :: "std__yaml".data)
      = "/@jsr%2Fstd__yaml".data := by decide
  have e3 : "@jsr".data ++ '/' :: "std__yaml".data = "@jsr/std__yaml".data := by decide
  rw [e1, e2, e3] at h
  exact ⟨h.1, h.2.1, h.2.2 yamlBucket .get⟩

/-- C2 (amended): resolution strips the leading slash and applies exactly
one decoding pass to the whole remainder, whose result (or failure) is the
verbatim outcome; a remainder without a percent sign is used as-is. -/
theorem C2_strip_then_single_decode (p : List Char) :
    resolveList p = (decodeList (dropSlash p)).elim (Except.error .badPath) Except.ok
    ∧ (hasPercent (dropSlash p) = false → resolveList p = .ok (dropSlash p)) := by
  constructor
  · simp only [resolveList]
    cases hp : hasPercent (dropSlash p) with
    | false => rw [decodeList_noPercent _ hp]; simp
    | true =>
      simp only [if_true]
      cases hd : decodeList (dropSlash p) <;> simp [hd]
  · intro hp
    simp [resolveList, hp]

/-- C2 witness: at `/@jsr/std__yaml` the single decoding pass and the
as-is clause of the characterization both evaluate as stated. -/
theorem C2_strip_then_single_decode_witness :
    resolveList "/@jsr/std__yaml".data
      = (decodeList (dropSlash "/@jsr/std__yaml".data)).elim
          (Except.error .badPath) Except.ok
    ∧ resolveList "/@jsr/std__yaml".data = .ok (dropSlash "/@jsr/std__yaml".data) :=
  ⟨(C2_strip_then_single_decode _).1,
   (C2_strip_then_single_decode _).2 (by decide)⟩

/-- C2 counterexample: the path `/%2525` resolves (per the single decoding
pass) to the key `%25`, which still contains a percent-encoded octet, so
the key does retain percent-encoding, against the claim. -/
theorem C2_counterexample :
    resolveList "/%2525".data = .ok "%25".data
    ∧ hasEncodedOctet "%25".data = true := by
  decide

/-- C3: a supplied rewrite hook is applied exactly once, to the raw path
before any decoding, after which the pipeline behaves as if the rewritten
path had arrived with no hook; an absent hook passes the raw path through;
and the root hook example returns the `root.json` object with status
200. -/
theorem C3_rewrite_hook_once_before_decoding :
    (∀ (m : Method) (raw : List Char) (bucket : Bucket) (h : RewriteHook),
        proxyToR2 m raw bucket (some h) none = proxyToR2 m (h raw) bucket none none)
    ∧ proxyToR2 .get "/".data rootBucket (some rootHook) none
        = ⟨200, ⟨some "application/json".data, some 2⟩, some "\x7b\x7d".data⟩ := by
  constructor
  · intro m raw bucket h
    rfl
  · decide

/-- C4: a GET whose resolved key is present returns status 200, the stored
content type (generic binary fallback when absent), the content length,
and exactly the stored bytes as the body. -/
theorem C4_get_found_response (raw key : List Char) (bucket : Bucket)
    (obj : StorageObject)
    (hres : resolveList raw = .ok key) (hb : bucket key = .found obj) :
    proxyToR2 .get raw bucket none none
      = ⟨200, ⟨some (obj.contentType.getD octetStream), some obj.body.length⟩,
          some obj.body⟩ := by
  simp [proxyToR2, proxyCore, hres, hb, buildResponse]

/-- C4 witness: the test bucket and path give 200, content type
`application/json`, length 2, and the two stored bytes as body. -/
theorem C4_get_found_response_witness :
    proxyToR2 .get "/@jsr/std__yaml".data yamlBucket none none
      = ⟨200, ⟨some "application/json".data, some 2⟩, some "\x7b\x7d".data⟩ := by
  have h := C4_get_found_response "/@jsr/std__yaml".data "@jsr/std__yaml".data
    yamlBucket yamlObject (by decide) (by decide)
  exact h.trans (by decide)

/-- C5: a HEAD for a present key returns status 200, no body at all, and
exactly the headers the corresponding GET returns. -/
theorem C5_head_get_symmetry (raw key : List Char) (bucket : Bucket)
    (obj : StorageObject)
    (hres : resolveList raw = .ok key) (hb : bucket key = .found obj) :
    (proxyToR2 .head raw bucket none none).status = 200
    ∧ (proxyToR2 .head raw bucket none none).body = none
    ∧ (proxyToR2 .head raw bucket none none).headers
        = (proxyToR2 .get raw bucket none none).headers := by
  simp [proxyToR2, proxyCore, hres, hb, buildResponse]

/-- C5 witness: the HEAD test on the URL-encoded path against the test
bucket: status 200, empty body, headers equal to those of the GET. -/
theorem C5_head_get_symmetry_witness :
    (proxyToR2 .head "/@jsr%2Fstd__yaml".data yamlBucket none none).status = 200
    ∧ (proxyToR2 .head "/@jsr%2Fstd__yaml".data yamlBucket none none).body = none
    ∧ (proxyToR2 .head "/@jsr%2Fstd__yaml".data yamlBucket none none).headers
        = (proxyToR2 .get "/@jsr%2Fstd__yaml".data yamlBucket none none).headers :=
  C5_head_get_symmetry "/@jsr%2Fstd__yaml".data "@jsr/std__yaml".data yamlBucket
    yamlObject (by decide) (by decide)

/-- C6: a well-formed path whose resolved key is absent from the bucket
gives status 404 with an empty body and no content-type header. -/
theorem C6_not_found_404 (m : Method) (raw key : List Char) (bucket : Bucket)
    (hres : resolveList raw = .ok key) (hb : bucket key = .notFound) :
    proxyToR2 m raw bucket none none = ⟨404, ⟨none, none⟩, none⟩ := by
  simp [proxyToR2, proxyCore, hres, hb, buildResponse]

/-- C6 witness: a GET for `/@jsr/nonexistent` against the empty bucket
returns the bare 404 response. -/
theorem C6_not_found_404_witness :
    proxyToR2 .get "/@jsr/nonexistent".data emptyBucket none none
      = ⟨404, ⟨none, none⟩, none⟩ :=
  C6_not_found_404 .get "/@jsr/nonexistent".data "@jsr/nonexistent".data emptyBucket
    (by decide) (by decide)

/-- C7: a path with malformed percent-encoding fails resolution with the
`badPath` error, the client receives status 400 with an empty body, and no
key is ever produced for such a path, so no storage lookup can succeed. -/
theorem C7_bad_path_400 (m : Method) (raw : List Char) (bucket : Bucket)
    (hres : resolveList raw = .error .badPath) :
    proxyToR2 m raw bucket none none = badPathResponse
    ∧ (proxyToR2 m raw bucket none none).status = 400
    ∧ ∀ key, ¬ resolveList raw = .ok key := by
  refine ⟨by simp [proxyToR2, proxyCore, hres], by simp [proxyToR2, proxyCore, hres, badPathResponse], ?_⟩
  intro key hk
  rw [hres] at hk
  exact Except.noConfusion hk

/-- C7 witness: the path `/%zz` is malformed, and any GET for it against
the empty bucket answers 400. -/
theorem C7_bad_path_400_witness :
    proxyToR2 .get "/%zz".data emptyBucket none none = badPathResponse
    ∧ (proxyToR2 .get "/%zz".data emptyBucket none none).status = 400
    ∧ ∀ key, ¬ resolveList "/%zz".data = .ok key :=
  C7_bad_path_400 .get "/%zz".data emptyBucket (by decide)

/-- C8: a transient backend failure surfaces as a retryable condition with
status 502 or 503 and an empty body, and is never mapped to 404. -/
theorem C8_unavailable_not_404 (m : Method) (raw key : List Char) (bucket : Bucket)
    (hres : resolveList raw = .ok key) (hb : bucket key = .unavailable) :
    ((proxyToR2 m raw bucket none none).status = 502
      ∨ (proxyToR2 m raw bucket none none).status = 503)
    ∧ (proxyToR2 m raw bucket none none).status ≠ 404
    ∧ (proxyToR2 m raw bucket none none).body = none := by
  have h : proxyToR2 m raw bucket none none = ⟨503, ⟨none, none⟩, none⟩ := by
    simp [proxyToR2, proxyCore, hres, hb, buildResponse]
  rw [h]
  refine ⟨Or.inr rfl, by decide, rfl⟩

/-- C8 witness: with the backend down, the GET for `/@jsr/std__yaml`
answers 503 (hence 502-or-503, not 404) with an empty body. -/
theorem C8_unavailable_not_404_witness :
    ((proxyToR2 .get "/@jsr/std__yaml".data downBucket none none).status = 502
      ∨ (proxyToR2 .get "/@jsr/std__yaml".data downBucket none none).status = 503)
    ∧ (proxyToR2 .get "/@jsr/std__yaml".data downBucket none none).status ≠ 404
    ∧ (proxyToR2 .get "/@jsr/std__yaml".data downBucket none none).body = none :=
  C8_unavailable_not_404 .get "/@jsr/std__yaml".data "@jsr/std__yaml".data downBucket
    (by decide) rfl

/-- C9: with a cache whose hits agree with what the pipeline would build,
the response through the cache equals the response with no cache at all,
and the response never depends on the outcome of the best-effort store. -/
theorem C9_cache_transparent (m : Method) (raw : List Char) (bucket : Bucket)
    (hook : Option RewriteHook) (c : EdgeCache)
    (hcoh : ∀ r, c.lookup m raw = some r → r = proxyCore m raw bucket hook) :
    proxyToR2 m raw bucket hook (some c) = proxyToR2 m raw bucket hook none
    ∧ ∀ (st1 st2 : Method → List Char → Response → Bool),
        proxyToR2 m raw bucket hook (some ⟨c.lookup, st1⟩)
          = proxyToR2 m raw bucket hook (some ⟨c.lookup, st2⟩) := by
  constructor
  · cases hl : c.lookup m raw with
    | some r => simpa [proxyToR2, hl] using hcoh r hl
    | none => simp [proxyToR2, hl]
  · intro st1 st2
    simp only [proxyToR2]

/-- C9 witness: a cache that never hits and whose store always fails is
transparent on the test GET. -/
theorem C9_cache_transparent_witness :
    proxyToR2 .get "/@jsr/std__yaml".data yamlBucket none (some noStoreCache)
      = proxyToR2 .get "/@jsr/std__yaml".data yamlBucket none none :=
  (C9_cache_transparent .get "/@jsr/std__yaml".data yamlBucket none noStoreCache
    (fun _ h => Option.noConfusion h)).1

end JsrProxy
